import Mathlib

/-!
Verification of the turbomind-go native wrapper layer.

The C sources expose a handle-based API (`turbomind_create_engine`,
`turbomind_generate`, tensor and tensor-map operations, `turbomind_forward`,
the `free_*` operations and the process-wide last-error slot).  We embed
these functions shallowly: C pointers become `Option` values (`none` = null),
out-parameters become returned updated values, the mutable engine is threaded
explicitly, and the process-wide last-error string is passed in and returned.
Machine integers are modelled as `Int`/`Nat`, with `% 2^64` where `size_t`
overflow matters.  Floating-point sampling fields that no verified function
inspects beyond copying are omitted from the record models.

The repository contains several variants of the wrapper; each gets its own
namespace: `TMImpl` (turbomind_wrapper_impl.cpp), `TMSimplified`
(turbomind_wrapper_simplified.cpp), `TMWrapper` (turbomind_wrapper.cpp),
`TMHybrid` (turbomind_wrapper_hybrid.cpp), `TMMinimal`
(turbomind_wrapper_minimal_test.cpp) and `TMProper`
(turbomind_wrapper_proper.cpp).
-/

namespace TMTypes

/-- `TurboMindConfig` (the C struct passed to `turbomind_create_engine`).
`model_path` is a `const char*`, hence `Option String`.  Floating point
fields (`cache_max_entry_count`, `rope_scaling_factor`) are omitted: the
embedded functions only copy them. -/
structure TurboMindConfig where
  model_path : Option String
  model_format : Option String
  tp : Int
  session_len : Int
  max_batch_size : Int
  quant_policy : Int
  deriving Repr, DecidableEq

/-- `RequestParams` (C struct): caller request.  Float sampling fields
(temperature, top_p, repetition_penalty) omitted; they are only copied. -/
structure RequestParams where
  request_id : Int
  prompt : Option String
  max_new_tokens : Int
  top_k : Int
  stream : Bool
  stop_words : Option String
  deriving Repr, DecidableEq

/-- `ResponseData` (C struct): caller-owned out-struct filled by
`turbomind_generate`.  `text`/`error_message` are `char*` fields. -/
structure ResponseData where
  request_id : Int
  text : Option String
  input_tokens : Int
  output_tokens : Int
  finished : Bool
  error_code : Int
  error_message : Option String
  deriving Repr, DecidableEq

/-- `ModelInfo` (C struct) filled by `turbomind_get_model_info`. -/
structure ModelInfo where
  model_name : Option String
  model_type : Option String
  vocab_size : Int
  hidden_size : Int
  num_layers : Int
  max_position_embeddings : Int
  deriving Repr, DecidableEq

/-- `TurboMindDataType` enum from turbomind_wrapper.hpp. -/
inductive TurboMindDataType where
  | invalid | bool | uint8 | uint16 | uint32 | uint64
  | int8 | int16 | int32 | int64
  | fp16 | fp32 | fp64 | bf16
  deriving Repr, DecidableEq

/-- `TurboMindMemoryType` enum from turbomind_wrapper.hpp. -/
inductive TurboMindMemoryType where
  | cpu | cpuPinned | gpu
  deriving Repr, DecidableEq

/-- `TurboMindRequestStatus` enum from turbomind_wrapper.hpp. -/
inductive TurboMindRequestStatus where
  | pending | running | completed | cancelled | failed
  deriving Repr, DecidableEq

/-- `safe_string_copy`: `src ? std::string(src) : std::string()`. -/
def safe_string_copy : Option String → String
  | some s => s
  | none => ""

end TMTypes

namespace TMImpl

open TMTypes

/-- The `TurboMindEngine` struct of turbomind_wrapper_impl.cpp: model path,
readiness flag, atomic request-id counter, configuration snapshot and mock
model info. -/
structure TurboMindEngine where
  model_path : String
  model_type : String
  ready : Bool
  next_request_id : Int
  tp : Int
  session_len : Int
  max_batch_size : Int
  quant_policy : Int
  model_name : String
  vocab_size : Int := 32000
  hidden_size : Int := 4096
  num_layers : Int := 32
  max_position_embeddings : Int := 2048
  deriving Repr, DecidableEq

/-- The model-name extraction in `turbomind_create_engine`:
`path.substr(find_last_of("/\\") + 1)`, or the whole path when no
separator occurs. -/
def modelNameOfPath (path : String) : String :=
  ((path.split (fun c => c = '/' ∨ c = '\\')).reverse).headD path

/-- `turbomind_create_engine` (turbomind_wrapper_impl.cpp, lines 67-96).
Returns the new engine (or `none`) together with the updated process-wide
last-error string. -/
def turbomind_create_engine (config : Option TurboMindConfig) (gerr : String) :
    Option TurboMindEngine × String :=
  match config with
  | none => (none, "Invalid configuration: model_path is required")
  | some cfg =>
    match cfg.model_path with
    | none => (none, "Invalid configuration: model_path is required")
    | some mp =>
      let engine : TurboMindEngine :=
        { model_path := mp
          model_type := ""
          ready := true
          next_request_id := 1
          tp := if cfg.tp > 0 then cfg.tp else 1
          session_len := if cfg.session_len > 0 then cfg.session_len else 2048
          max_batch_size := if cfg.max_batch_size > 0 then cfg.max_batch_size else 32
          quant_policy := cfg.quant_policy
          model_name := modelNameOfPath mp }
      (some engine, gerr)

/-- `turbomind_get_last_error`: returns the process-wide last-error slot. -/
def turbomind_get_last_error (gerr : String) : String := gerr

/-- `turbomind_is_engine_ready`: `engine && engine->ready.load()`. -/
def turbomind_is_engine_ready : Option TurboMindEngine → Bool
  | none => false
  | some eng => eng.ready

/-- Result of one `turbomind_generate` call: the C return code, the engine
state after the call, the caller's response struct after the call and the
process-wide last-error slot after the call.  A `none` engine/response means
the caller passed a null pointer (nulls are never written through). -/
structure GenOut where
  ret : Int
  engine : Option TurboMindEngine
  response : Option ResponseData
  last_error : String
  deriving Repr, DecidableEq

/-- `turbomind_generate` (turbomind_wrapper_impl.cpp, lines 109-148): null
checks, readiness check, empty-prompt check, then the mock response fill.
`allocate_string` is modelled as always succeeding. -/
def turbomind_generate (engine : Option TurboMindEngine)
    (request : Option RequestParams) (response : Option ResponseData)
    (gerr : String) : GenOut :=
  match engine, request, response with
  | some eng, some req, some resp =>
    if eng.ready = false then
      ⟨-1, some eng, some resp, "Engine not ready"⟩
    else
      let prompt := safe_string_copy req.prompt
      if prompt = "" then
        ⟨-1, some eng, some resp, "Empty prompt"⟩
      else
        let mock := "This is a mock response to: " ++ prompt
        let rid : Int :=
          if req.request_id > 0 then req.request_id else eng.next_request_id
        let eng' :=
          if req.request_id > 0 then eng
          else { eng with next_request_id := eng.next_request_id + 1 }
        let resp' : ResponseData :=
          { request_id := rid
            text := some mock
            input_tokens := (prompt.length / 4 : Nat)
            output_tokens := (mock.length / 4 : Nat)
            finished := true
            error_code := 0
            error_message := none }
        ⟨0, some eng', some resp', gerr⟩
  | _, _, _ => ⟨-1, engine, response, "Invalid parameters"⟩

/-- The trace of calling `turbomind_generate` individually on a list of
(request, caller response struct) pairs in order on one engine: for each
item, the C return code and the caller's response struct after that call. -/
def genTrace (eng : TurboMindEngine) (gerr : String) :
    List (RequestParams × ResponseData) → List (Int × ResponseData)
  | [] => []
  | (r, resp) :: rest =>
    let out := turbomind_generate (some eng) (some r) (some resp) gerr
    (out.ret, out.response.getD resp) :: genTrace (out.engine.getD eng) out.last_error rest

/-- The request IDs auto-assigned (caller id not positive, call succeeded)
by a sequence of `turbomind_generate` calls on one engine, in order. -/
def autoIds (eng : TurboMindEngine) (gerr : String) :
    List (RequestParams × ResponseData) → List Int
  | [] => []
  | (r, resp) :: rest =>
    let out := turbomind_generate (some eng) (some r) (some resp) gerr
    let rest' := autoIds (out.engine.getD eng) out.last_error rest
    if out.ret = 0 ∧ ¬ r.request_id > 0 then
      (out.response.getD resp).request_id :: rest'
    else
      rest'

/-- The loop body of `turbomind_generate_batch` (turbomind_wrapper_impl.cpp,
lines 166-171): call `turbomind_generate` on each item in order; on the
first nonzero return, return that code, leaving the remaining response
structs untouched.  The returned list is the caller's response array after
the call. -/
def batchLoop (eng : TurboMindEngine) (gerr : String) :
    List (RequestParams × ResponseData) → Int × TurboMindEngine × List ResponseData × String
  | [] => (0, eng, [], gerr)
  | (r, resp) :: rest =>
    let out := turbomind_generate (some eng) (some r) (some resp) gerr
    if out.ret = 0 then
      let tail := batchLoop (out.engine.getD eng) out.last_error rest
      (tail.1, tail.2.1, (out.response.getD resp) :: tail.2.2.1, tail.2.2.2)
    else
      (out.ret, out.engine.getD eng, (out.response.getD resp) :: rest.map Prod.snd, out.last_error)

/-- `turbomind_generate_batch` (turbomind_wrapper_impl.cpp, lines 160-174).
The `requests`/`responses` arrays (of length `batch_size`) are modelled as
one optional list of pairs; `batch_size <= 0` corresponds to the empty
list. -/
def turbomind_generate_batch (engine : Option TurboMindEngine)
    (items : Option (List (RequestParams × ResponseData))) (gerr : String) :
    Int × Option TurboMindEngine × List ResponseData × String :=
  match engine, items with
  | some eng, some its =>
    if its.length ≤ 0 then
      (-1, some eng, its.map Prod.snd, "Invalid parameters for batch generation")
    else
      let out := batchLoop eng gerr its
      (out.1, some out.2.1, out.2.2.1, out.2.2.2)
  | _, _ => (-1, engine, (items.getD []).map Prod.snd, "Invalid parameters for batch generation")

/-- `turbomind_free_response` (turbomind_wrapper_impl.cpp, lines 190-201):
frees `text` and `error_message` when non-null and nulls them.  Returns the
struct after the call together with the number of `free` calls performed
(0 means the call was a no-op on the heap). -/
def turbomind_free_response (response : Option ResponseData) :
    Option ResponseData × Nat :=
  match response with
  | none => (none, 0)
  | some r =>
    (some { r with text := none, error_message := none },
      (if r.text.isSome then 1 else 0) + (if r.error_message.isSome then 1 else 0))

end TMImpl

namespace TMSimplified

open TMTypes

/-- The `TurboMindEngine` struct of turbomind_wrapper_simplified.cpp. -/
structure TurboMindEngine where
  model_path : String
  model_type : String
  ready : Bool
  next_request_id : Int
  deriving Repr, DecidableEq

/-- `turbomind_create_engine` (turbomind_wrapper_simplified.cpp, lines
55-72). -/
def turbomind_create_engine (config : Option TurboMindConfig) (gerr : String) :
    Option TurboMindEngine × String :=
  match config with
  | none => (none, "Invalid configuration: model_path is required")
  | some cfg =>
    match cfg.model_path with
    | none => (none, "Invalid configuration: model_path is required")
    | some mp =>
      (some { model_path := mp, model_type := "", ready := true, next_request_id := 1 }, gerr)

/-- Result of one simplified-variant `turbomind_generate` call (same reading
as `TMImpl.GenOut`). -/
structure GenOut where
  ret : Int
  engine : Option TurboMindEngine
  response : Option ResponseData
  last_error : String
  deriving Repr, DecidableEq

/-- `turbomind_generate` (turbomind_wrapper_simplified.cpp, lines 85-112):
null checks and readiness check, then the canned mock response fill.  Note:
this variant performs no empty-prompt check; the prompt is never read. -/
def turbomind_generate (engine : Option TurboMindEngine)
    (request : Option RequestParams) (response : Option ResponseData)
    (gerr : String) : GenOut :=
  match engine, request, response with
  | some eng, some req, some _ =>
    if eng.ready = false then
      ⟨-1, some eng, response, "Engine not ready"⟩
    else
      let rid : Int :=
        if req.request_id > 0 then req.request_id else eng.next_request_id
      let eng' :=
        if req.request_id > 0 then eng
        else { eng with next_request_id := eng.next_request_id + 1 }
      let resp' : ResponseData :=
        { request_id := rid
          text := some "Mock response from TurboMind"
          input_tokens := 10
          output_tokens := 5
          finished := true
          error_code := 0
          error_message := none }
      ⟨0, some eng', some resp', gerr⟩
  | _, _, _ => ⟨-1, engine, response, "Invalid parameters"⟩

end TMSimplified

namespace TMHybrid

open TMTypes

/-- `turbomind_free_model_info` (turbomind_wrapper_hybrid.cpp, lines
392-398): `delete[]` both string fields (a no-op on null) and `memset` the
whole struct to zero.  Returns the struct after the call together with the
number of non-null pointers actually freed. -/
def turbomind_free_model_info (info : Option ModelInfo) :
    Option ModelInfo × Nat :=
  match info with
  | none => (none, 0)
  | some i =>
    (some { model_name := none, model_type := none, vocab_size := 0,
            hidden_size := 0, num_layers := 0, max_position_embeddings := 0 },
      (if i.model_name.isSome then 1 else 0) + (if i.model_type.isSome then 1 else 0))

end TMHybrid

namespace TMMinimal

open TMTypes

/-- The `size_t` modulus. -/
def size_t_mod : Nat := 2 ^ 64

/-- The per-element byte multiplier applied in the `TurboMindTensor`
constructor of turbomind_wrapper_minimal_test.cpp (lines 64-70): 4 for
INT32 and FP32, 2 for FP16, and 4 for every other data type (the `default`
branch). -/
def dtypeMultiplier : TurboMindDataType → Nat
  | .int32 => 4
  | .fp16 => 2
  | .fp32 => 4
  | _ => 4

/-- The `size_bytes` computation of the `TurboMindTensor` constructor
(turbomind_wrapper_minimal_test.cpp, lines 58-70): `size_t size_bytes = 1`,
multiplied by each `int64_t` dimension (converted to `size_t` modulo 2^64)
and finally by the data-type multiplier, all in `size_t` arithmetic. -/
def sizeBytesCalc (shape : List Int) (dt : TurboMindDataType) : Nat :=
  (shape.foldl (fun acc d => acc * ((d % (size_t_mod : Int)).toNat) % size_t_mod) 1)
    * dtypeMultiplier dt % size_t_mod

/-- The plain (overflow-free) product of a shape's dimensions, used to state
the byte-size property. -/
def natProd (shape : List Int) : Nat := (shape.map Int.toNat).prod

/-- The byte width per data type AS CLAIM C7 STATES IT (2 for FP16, 4 for
FP32/INT32, 8 for FP64/INT64/UINT64, 1 for INT8/UINT8/BOOL); this is the
claim's table, written down only to be compared against the code's
`dtypeMultiplier`, which disagrees with it. -/
def specDtypeWidth : TurboMindDataType → Nat
  | .fp16 => 2
  | .fp32 => 4
  | .int32 => 4
  | .fp64 => 8
  | .int64 => 8
  | .uint64 => 8
  | .int8 => 1
  | .uint8 => 1
  | .bool => 1
  | .bf16 => 2
  | .int16 => 2
  | .uint16 => 2
  | .uint32 => 4
  | .invalid => 0

/-- The `TurboMindTensor` struct of turbomind_wrapper_minimal_test.cpp
(lines 47-74): shape, data type, memory location and the byte size computed
at construction. -/
structure TurboMindTensor where
  shape : List Int
  dtype : TurboMindDataType
  memory_type : TurboMindMemoryType
  size_bytes : Nat
  deriving Repr, DecidableEq

/-- `turbomind_create_tensor` (turbomind_wrapper_minimal_test.cpp, lines
136-149): rejects a null data pointer, a null shape pointer or `ndim <= 0`,
otherwise constructs the tensor from the `ndim` dimensions read from the
shape array (the array is modelled as the list of those dimensions, so
`ndim` is its length).  The data pointer itself is only stored, modelled
as an address. -/
def turbomind_create_tensor (data : Option Nat) (shape : Option (List Int))
    (dtype : TurboMindDataType) (memory_type : TurboMindMemoryType)
    (device_id : Int) (gerr : String) : Option TurboMindTensor × String :=
  match data, shape with
  | some _, some sh =>
    if sh.length ≤ 0 then
      (none, "Invalid tensor parameters")
    else
      (some { shape := sh, dtype := dtype, memory_type := memory_type,
              size_bytes := sizeBytesCalc sh dtype }, gerr)
  | _, _ => (none, "Invalid tensor parameters")

/-- `turbomind_get_tensor_size` (turbomind_wrapper_minimal_test.cpp, lines
274-280): 0 with an error for a null tensor, else the stored byte size. -/
def turbomind_get_tensor_size (tensor : Option TurboMindTensor)
    (gerr : String) : Nat × String :=
  match tensor with
  | none => (0, "Invalid tensor for size calculation")
  | some t => (t.size_bytes, gerr)

/-- The `TurboMindTensorMap` struct of turbomind_wrapper_minimal_test.cpp:
`std::map<std::string, std::shared_ptr<TurboMindTensor>>` whose entries are
created with a no-op deleter, i.e. they borrow the caller's tensor.  We
model the map as an association list from key to the borrowed tensor
handle (an address), keyed uniquely. -/
abbrev TensorMap := List (String × Nat)

/-- `std::map::operator[]` followed by assignment: replace the value at the
key if present, else append the pair. -/
def mapAssign (k : String) (v : Nat) : List (String × Nat) → List (String × Nat)
  | [] => [(k, v)]
  | (k', v') :: rest =>
    if k' = k then (k', v) :: rest else (k', v') :: mapAssign k v rest

/-- `std::map::find` on the association list. -/
def mapFind (k : String) : List (String × Nat) → Option Nat
  | [] => none
  | (k', v') :: rest => if k' = k then some v' else mapFind k rest

/-- `turbomind_tensor_map_set` (turbomind_wrapper_minimal_test.cpp, lines
168-183): rejects null map/key/tensor with -1, else stores the caller's
tensor handle under the key (wrapped in a `shared_ptr` with a no-op
deleter — a borrow, not a copy) and returns 0.  Returns the updated map. -/
def turbomind_tensor_map_set (tensor_map : Option TensorMap)
    (key : Option String) (tensor : Option Nat) (gerr : String) :
    Int × Option TensorMap × String :=
  match tensor_map, key, tensor with
  | some m, some k, some t => (0, some (mapAssign k t m), gerr)
  | _, _, _ => (-1, tensor_map, "Invalid parameters for tensor map set")

/-- `turbomind_tensor_map_get` (turbomind_wrapper_minimal_test.cpp, lines
185-202): rejects null map/key, returns null with an error when the key is
absent, else returns the stored raw tensor handle (`it->second.get()`). -/
def turbomind_tensor_map_get (tensor_map : Option TensorMap)
    (key : Option String) (gerr : String) : Option Nat × String :=
  match tensor_map, key with
  | some m, some k =>
    match mapFind k m with
    | none => (none, "Tensor not found in map: " ++ k)
    | some t => (some t, gerr)
  | _, _ => (none, "Invalid parameters for tensor map get")

end TMMinimal

namespace TMWrapper

open TMTypes

/-- The `turbomind::Request` struct as filled by `turbomind_generate` in
turbomind_wrapper.cpp (lines 132-140).  Float sampling fields (temperature,
top_p, repetition_penalty) are only copied with defaults and are omitted. -/
structure TMRequest where
  id : Int
  prompt : String
  max_new_tokens : Int
  top_k : Int
  stream : Bool
  deriving Repr, DecidableEq

/-- The `turbomind::Response` struct as read back by `turbomind_generate`
in turbomind_wrapper.cpp (lines 164-170). -/
structure TMResponse where
  text : String
  input_tokens : Int
  output_tokens : Int
  finished : Bool
  error_code : Int
  error_message : String
  deriving Repr, DecidableEq

/-- The backend `turbomind::Engine::Generate` collaborator: for a request it
either throws (`Except.error` with the exception message), returns a null
response (`Except.ok none`), or returns a response. -/
def Backend := TMRequest → Except String (Option TMResponse)

/-- The `TurboMindEngine` struct of turbomind_wrapper.cpp (lines 33-42):
readiness flag, the active-request map (`std::map<int64_t, shared_ptr<Request>>`,
modelled as an association list with unique keys) and the atomic request-id
counter.  The owned backend engine pointer is modelled as the `Backend`
function passed to each operation. -/
structure TurboMindEngine where
  model_path : String
  model_type : String
  ready : Bool
  active_requests : List (Int × TMRequest)
  next_request_id : Int
  deriving Repr, DecidableEq

/-- `std::map::operator[]` followed by assignment on the active-request
map. -/
def mapAssign (k : Int) (v : TMRequest) : List (Int × TMRequest) → List (Int × TMRequest)
  | [] => [(k, v)]
  | (k', v') :: rest =>
    if k' = k then (k', v) :: rest else (k', v') :: mapAssign k v rest

/-- `std::map::erase` by key on the active-request map. -/
def mapErase (k : Int) : List (Int × TMRequest) → List (Int × TMRequest)
  | [] => []
  | (k', v') :: rest =>
    if k' = k then rest else (k', v') :: mapErase k rest

/-- `std::map::find`-style lookup on the active-request map. -/
def mapFind (k : Int) : List (Int × TMRequest) → Option TMRequest
  | [] => none
  | (k', v') :: rest => if k' = k then some v' else mapFind k rest

/-- Result of one turbomind_wrapper.cpp `turbomind_generate` call (same
reading as `TMImpl.GenOut`). -/
structure GenOut where
  ret : Int
  engine : Option TurboMindEngine
  response : Option ResponseData
  last_error : String
  deriving Repr, DecidableEq

/-- Line 133 of turbomind_wrapper.cpp: the request id given to the
`turbomind::Request` — the caller's id when positive, else
`next_request_id++` (the pre-increment value). -/
def assignedId (eng : TurboMindEngine) (req : RequestParams) : Int :=
  if req.request_id > 0 then req.request_id else eng.next_request_id

/-- Lines 132-140 of turbomind_wrapper.cpp: the `turbomind::Request` built
from the caller's request, with defaults for non-positive fields. -/
def buildRequest (eng : TurboMindEngine) (req : RequestParams) : TMRequest :=
  { id := assignedId eng req
    prompt := safe_string_copy req.prompt
    max_new_tokens := if req.max_new_tokens > 0 then req.max_new_tokens else 512
    top_k := if req.top_k > 0 then req.top_k else 40
    stream := req.stream }

/-- Lines 133 and 149-153 of turbomind_wrapper.cpp: the engine state after
the counter post-increment (auto-assignment only) and the insertion of the
built request into the active-request map under the request mutex. -/
def insertRequest (eng : TurboMindEngine) (req : RequestParams) : TurboMindEngine :=
  { eng with
      next_request_id :=
        if req.request_id > 0 then eng.next_request_id else eng.next_request_id + 1
      active_requests := mapAssign (assignedId eng req) (buildRequest eng req) eng.active_requests }

/-- Lines 172-176 of turbomind_wrapper.cpp: erase the request id from the
active-request map under the request mutex. -/
def eraseRequest (eng : TurboMindEngine) (rid : Int) : TurboMindEngine :=
  { eng with active_requests := mapErase rid eng.active_requests }

/-- Lines 163-170 of turbomind_wrapper.cpp: fill the caller's response
struct from the backend response. -/
def fillResponse (rid : Int) (tm_response : TMResponse) : ResponseData :=
  { request_id := rid
    text := some tm_response.text
    input_tokens := tm_response.input_tokens
    output_tokens := tm_response.output_tokens
    finished := tm_response.finished
    error_code := tm_response.error_code
    error_message :=
      if tm_response.error_message = "" then none
      else some tm_response.error_message }

/-- `turbomind_generate` (turbomind_wrapper.cpp, lines 119-184): null and
readiness checks; build the `turbomind::Request` (honouring a positive
caller request id, otherwise taking `next_request_id++`); insert it into
the active-request map under the request mutex; dispatch to the backend
`Generate`; on a null backend response return -1 (the map entry is NOT
erased); on success fill the caller's response, erase the map entry and
return 0.  A backend exception is caught and returns -1 (again without
erasing). -/
def turbomind_generate (backend : Backend) (engine : Option TurboMindEngine)
    (request : Option RequestParams) (response : Option ResponseData)
    (gerr : String) : GenOut :=
  match engine, request, response with
  | some eng, some req, some resp =>
    if eng.ready = false then
      ⟨-1, some eng, some resp, "Engine not ready"⟩
    else
      match backend (buildRequest eng req) with
      | .error w =>
        ⟨-1, some (insertRequest eng req), some resp, "Exception during generation: " ++ w⟩
      | .ok none =>
        ⟨-1, some (insertRequest eng req), some resp, "Generation failed"⟩
      | .ok (some tm_response) =>
        ⟨0, some (eraseRequest (insertRequest eng req) (assignedId eng req)),
         some (fillResponse (assignedId eng req) tm_response), gerr⟩
  | _, _, _ => ⟨-1, engine, response, "Invalid parameters"⟩

/-- `turbomind_destroy_engine` (turbomind_wrapper.cpp, lines 103-113):
clears the readiness flag, clears the active-request map under its lock,
then deletes the engine.  The returned value is the engine state at the
moment of deallocation (null input is a no-op). -/
def turbomind_destroy_engine (engine : Option TurboMindEngine) :
    Option TurboMindEngine :=
  match engine with
  | none => none
  | some eng => some { eng with ready := false, active_requests := [] }

end TMWrapper

namespace TMProper

open TMTypes

/-- The `TurboMindSession` struct of turbomind_wrapper.hpp (lines 45-50). -/
structure TurboMindSession where
  id : Nat
  step : Int
  start_flag : Bool
  end_flag : Bool
  deriving Repr, DecidableEq

/-- The `TurboMindGenerationConfig` struct of turbomind_wrapper.hpp (lines
53-71).  Each token-id array is an `int*` plus an `int` count: the pointer
is `none` when null, otherwise the list of elements reachable through it.
Float sampling fields (top_p, min_p, temperature, repetition_penalty) are
only copied and are omitted. -/
structure TurboMindGenerationConfig where
  max_new_tokens : Int
  min_new_tokens : Int
  eos_ids : Option (List Int)
  eos_ids_count : Int
  stop_ids : Option (List Int)
  stop_ids_count : Int
  bad_ids : Option (List Int)
  bad_ids_count : Int
  top_k : Int
  random_seed : Nat
  output_logprobs : Bool
  output_last_hidden_state : Bool
  output_logits : Bool
  deriving Repr, DecidableEq

/-- The backend `ft::SessionParam` built by `turbomind_forward`
(turbomind_wrapper_proper.cpp, lines 328-332). -/
structure FTSessionParam where
  id : Nat
  step : Int
  start_flag : Bool
  end_flag : Bool
  deriving Repr, DecidableEq

/-- The backend `ft::GenerationConfig` fields assigned by
`turbomind_forward` (turbomind_wrapper_proper.cpp, lines 335-357). -/
structure FTGenerationConfig where
  max_new_tokens : Int
  min_new_tokens : Int
  top_k : Int
  random_seed : Nat
  output_logprobs : Bool
  output_last_hidden_state : Bool
  output_logits : Bool
  eos_ids : List Int
  stop_ids0 : List Int
  bad_ids0 : List Int
  deriving Repr, DecidableEq

/-- Lines 328-332 of turbomind_wrapper_proper.cpp: copy the session
fields into the backend session param. -/
def build_session_param (s : TurboMindSession) : FTSessionParam :=
  { id := s.id, step := s.step, start_flag := s.start_flag, end_flag := s.end_flag }

/-- Lines 335-357 of turbomind_wrapper_proper.cpp: copy the scalar
generation-config fields, then copy each token-id array into the backend
config only when its pointer is non-null AND its count is positive
(`assign(ptr, ptr + count)`, i.e. the first `count` elements); otherwise
the backend list keeps its default empty value and the pointer is never
dereferenced. -/
def build_generation_config (gc : TurboMindGenerationConfig) : FTGenerationConfig :=
  { max_new_tokens := gc.max_new_tokens
    min_new_tokens := gc.min_new_tokens
    top_k := gc.top_k
    random_seed := gc.random_seed
    output_logprobs := gc.output_logprobs
    output_last_hidden_state := gc.output_last_hidden_state
    output_logits := gc.output_logits
    eos_ids :=
      match gc.eos_ids with
      | some l => if gc.eos_ids_count > 0 then l.take gc.eos_ids_count.toNat else []
      | none => []
    stop_ids0 :=
      match gc.stop_ids with
      | some l => if gc.stop_ids_count > 0 then l.take gc.stop_ids_count.toNat else []
      | none => []
    bad_ids0 :=
      match gc.bad_ids with
      | some l => if gc.bad_ids_count > 0 then l.take gc.bad_ids_count.toNat else []
      | none => [] }

/-- The `ft::ModelRequest::InputParam` built by `turbomind_forward`
(turbomind_wrapper_proper.cpp, lines 360-364); the input tensor map is an
opaque handle. -/
structure FTInput where
  tensors : Nat
  session : FTSessionParam
  gen_cfg : FTGenerationConfig
  stream_output : Bool
  deriving Repr, DecidableEq

/-- The backend `ModelRequest::Forward` collaborator: either throws
(`Except.error` with the exception message) or returns the output tensor
map (an opaque handle). -/
def Backend := FTInput → Except String Nat

/-- The `TurboMindForwardResult` struct of turbomind_wrapper_proper.cpp
(lines 149-156). -/
structure TurboMindForwardResult where
  tensors : Nat
  status : TurboMindRequestStatus
  seq_len : Int
  deriving Repr, DecidableEq

/-- `turbomind_forward` (turbomind_wrapper_proper.cpp, lines 316-377):
rejects any null argument with "Invalid parameters for forward" before
touching any of them; otherwise builds the backend session and generation
config (see `build_session_param` / `build_generation_config`), dispatches
to the backend and wraps the result with status COMPLETED and seq_len 0.  A
backend exception is caught and converted to a null result with a message. -/
def turbomind_forward (backend : Backend) (inst : Option Nat)
    (input_tensors : Option Nat) (session : Option TurboMindSession)
    (gen_config : Option TurboMindGenerationConfig) (stream_output : Bool)
    (gerr : String) : Option TurboMindForwardResult × String :=
  match inst, input_tensors, session, gen_config with
  | some _, some tmap, some s, some gc =>
    let input : FTInput :=
      { tensors := tmap
        session := build_session_param s
        gen_cfg := build_generation_config gc
        stream_output := stream_output }
    match backend input with
    | .error w => (none, "Forward inference failed: " ++ w)
    | .ok out => (some { tensors := out, status := .completed, seq_len := 0 }, gerr)
  | _, _, _, _ => (none, "Invalid parameters for forward")

end TMProper

namespace TestData

open TMTypes

/-- A config whose model path is the empty string (non-null). -/
def emptyPathConfig : TurboMindConfig :=
  { model_path := some "", model_format := none, tp := 1, session_len := 1024,
    max_batch_size := 8, quant_policy := 0 }

/-- A config with a normal model path. -/
def normalConfig : TurboMindConfig :=
  { model_path := some "/models/llama", model_format := none, tp := 1,
    session_len := 1024, max_batch_size := 8, quant_policy := 0 }

/-- A zero-initialised caller response struct. -/
def blankResponse : ResponseData :=
  { request_id := 0, text := none, input_tokens := 0, output_tokens := 0,
    finished := false, error_code := 0, error_message := none }

/-- A request whose prompt is the empty string (non-null). -/
def emptyPromptReq : RequestParams :=
  { request_id := 1, prompt := some "", max_new_tokens := 0, top_k := 0,
    stream := false, stop_words := none }

/-- A request with a caller-supplied positive request id. -/
def helloReq : RequestParams :=
  { request_id := 5, prompt := some "Hello", max_new_tokens := 0, top_k := 0,
    stream := false, stop_words := none }

/-- A request with request id 0, forcing auto-assignment. -/
def autoReq : RequestParams :=
  { request_id := 0, prompt := some "Hi", max_new_tokens := 0, top_k := 0,
    stream := false, stop_words := none }

/-- A ready impl-variant engine. -/
def readyEngineI : TMImpl.TurboMindEngine :=
  { model_path := "/models/llama", model_type := "", ready := true,
    next_request_id := 1, tp := 1, session_len := 1024, max_batch_size := 8,
    quant_policy := 0, model_name := "llama" }

/-- A torn-down (not ready) impl-variant engine. -/
def downEngineI : TMImpl.TurboMindEngine :=
  { readyEngineI with ready := false }

/-- A ready simplified-variant engine. -/
def readyEngineS : TMSimplified.TurboMindEngine :=
  { model_path := "/models/llama", model_type := "", ready := true,
    next_request_id := 1 }

/-- A ready wrapper-variant engine with an empty active-request map. -/
def readyEngineW : TMWrapper.TurboMindEngine :=
  { model_path := "/models/llama", model_type := "", ready := true,
    active_requests := [], next_request_id := 1 }

/-- A backend whose `Generate` returns a null response. -/
def nullRespBackend : TMWrapper.Backend := fun _ => Except.ok none

/-- A backend whose `Generate` succeeds with a fixed response. -/
def okBackendW : TMWrapper.Backend :=
  fun _ => Except.ok (some { text := "ok", input_tokens := 1, output_tokens := 1,
                             finished := true, error_code := 0, error_message := "" })

/-- A session struct for forward calls. -/
def sessionA : TMProper.TurboMindSession :=
  { id := 11, step := 0, start_flag := true, end_flag := false }

/-- A generation config whose eos array pointer is null while its count is
positive (the caller contract violation from claim C8). -/
def gcMismatch : TMProper.TurboMindGenerationConfig :=
  { max_new_tokens := 16, min_new_tokens := 0, eos_ids := none,
    eos_ids_count := 3, stop_ids := none, stop_ids_count := 0,
    bad_ids := none, bad_ids_count := 0, top_k := 0, random_seed := 0,
    output_logprobs := false, output_last_hidden_state := false,
    output_logits := false }

/-- A generation config with consistent token-id arrays. -/
def gcFull : TMProper.TurboMindGenerationConfig :=
  { max_new_tokens := 16, min_new_tokens := 0, eos_ids := some [2],
    eos_ids_count := 1, stop_ids := some [7, 8], stop_ids_count := 2,
    bad_ids := none, bad_ids_count := 0, top_k := 0, random_seed := 0,
    output_logprobs := false, output_last_hidden_state := false,
    output_logits := false }

/-- A forward backend that returns output tensor-map handle 0. -/
def okBackendP : TMProper.Backend := fun _ => Except.ok 0

/-- The tensor created by the minimal-test variant for shape [2,3] and
FP32. -/
def tensor23 : TMMinimal.TurboMindTensor :=
  { shape := [2, 3], dtype := .fp32, memory_type := .cpu, size_bytes := 24 }

end TestData

/-! ## Claim C1: create_engine on null/empty model path -/

/-- Claim C1 (counterexample): a config whose `model_path` is the empty
string — non-null but empty — is NOT rejected: both the impl and the
simplified variant of `turbomind_create_engine` return an engine handle for
it, contradicting the claim that every null-or-empty model path yields
null. -/
theorem C1_counterexample :
    (TMImpl.turbomind_create_engine (some TestData.emptyPathConfig) "").1.isSome = true ∧
    (TMSimplified.turbomind_create_engine (some TestData.emptyPathConfig) "").1.isSome = true :=
  ⟨rfl, rfl⟩

/-- Claim C1 (amended): `turbomind_create_engine` returns null exactly for
a null config or a null `model_path` field, and then the message "Invalid
configuration: model_path is required" is retrievable via
`turbomind_get_last_error`; a non-null `model_path` — even the empty
string — yields an engine handle.  Proved for both the impl and the
simplified variant. -/
theorem C1_create_engine_null_config :
    (∀ (config : Option TMTypes.TurboMindConfig) (gerr : String),
      (config = none ∨ ∃ cfg, config = some cfg ∧ cfg.model_path = none) →
      (TMImpl.turbomind_create_engine config gerr).1 = none ∧
      TMImpl.turbomind_get_last_error (TMImpl.turbomind_create_engine config gerr).2 =
        "Invalid configuration: model_path is required" ∧
      (TMSimplified.turbomind_create_engine config gerr).1 = none ∧
      (TMSimplified.turbomind_create_engine config gerr).2 =
        "Invalid configuration: model_path is required")
    ∧ (∀ (cfg : TMTypes.TurboMindConfig) (p : String) (gerr : String),
      cfg.model_path = some p →
      (TMImpl.turbomind_create_engine (some cfg) gerr).1.isSome = true ∧
      (TMSimplified.turbomind_create_engine (some cfg) gerr).1.isSome = true) := by
  constructor
  · rintro config gerr (rfl | ⟨cfg, rfl, hmp⟩)
    · exact ⟨rfl, rfl, rfl, rfl⟩
    · simp [TMImpl.turbomind_create_engine, TMSimplified.turbomind_create_engine,
        TMImpl.turbomind_get_last_error, hmp]
  · intro cfg p gerr hmp
    simp [TMImpl.turbomind_create_engine, TMSimplified.turbomind_create_engine, hmp]

/-- Witness for `C1_create_engine_null_config`: the null config is rejected
with the invalid-configuration message, and the empty-string-path config
yields engine handles. -/
theorem C1_witness :
    ((TMImpl.turbomind_create_engine none "").1 = none ∧
      TMImpl.turbomind_get_last_error (TMImpl.turbomind_create_engine none "").2 =
        "Invalid configuration: model_path is required" ∧
      (TMSimplified.turbomind_create_engine none "").1 = none ∧
      (TMSimplified.turbomind_create_engine none "").2 =
        "Invalid configuration: model_path is required") ∧
    ((TMImpl.turbomind_create_engine (some TestData.emptyPathConfig) "").1.isSome = true ∧
      (TMSimplified.turbomind_create_engine (some TestData.emptyPathConfig) "").1.isSome = true) :=
  ⟨C1_create_engine_null_config.1 none "" (Or.inl rfl),
   C1_create_engine_null_config.2 TestData.emptyPathConfig "" "" rfl⟩

/-! ## Claim C2: generate on an empty prompt -/

/-- Claim C2 (counterexample): in the simplified variant
(turbomind_wrapper_simplified.cpp), `turbomind_generate` performs no
empty-prompt check: on a ready engine and a request whose prompt is the
empty string it returns 0 and populates the caller's response, contradicting
the claim that every empty-prompt call returns -1 with the response left
unchanged. -/
theorem C2_counterexample :
    (TMSimplified.turbomind_generate (some TestData.readyEngineS)
        (some TestData.emptyPromptReq) (some TestData.blankResponse) "").ret = 0 ∧
    (TMSimplified.turbomind_generate (some TestData.readyEngineS)
        (some TestData.emptyPromptReq) (some TestData.blankResponse) "").response =
      some { request_id := 1, text := some "Mock response from TurboMind",
             input_tokens := 10, output_tokens := 5, finished := true,
             error_code := 0, error_message := none } :=
  ⟨rfl, rfl⟩

/-- Claim C2 (amended): in the impl variant (turbomind_wrapper_impl.cpp),
`turbomind_generate` on a ready engine and a non-null request whose prompt
is null or empty returns -1 with "Empty prompt" as the last error and
leaves the caller's response struct (and the engine) unchanged. -/
theorem C2_empty_prompt_rejected (eng : TMImpl.TurboMindEngine)
    (req : TMTypes.RequestParams) (resp : TMTypes.ResponseData) (gerr : String)
    (hready : eng.ready = true)
    (hprompt : req.prompt = none ∨ req.prompt = some "") :
    TMImpl.turbomind_generate (some eng) (some req) (some resp) gerr =
      ⟨-1, some eng, some resp, "Empty prompt"⟩ := by
  rcases hprompt with h | h <;>
    simp [TMImpl.turbomind_generate, TMTypes.safe_string_copy, h, hready]

/-- Witness for `C2_empty_prompt_rejected` on a concrete ready engine and
an empty-string prompt. -/
theorem C2_witness :
    TMImpl.turbomind_generate (some TestData.readyEngineI)
        (some TestData.emptyPromptReq) (some TestData.blankResponse) "" =
      ⟨-1, some TestData.readyEngineI, some TestData.blankResponse, "Empty prompt"⟩ :=
  C2_empty_prompt_rejected TestData.readyEngineI TestData.emptyPromptReq
    TestData.blankResponse "" rfl (Or.inr rfl)

/-! ## Claim C9: idempotence of the free operations -/

/-- Claim C9 (confirmed): `turbomind_free_response` (impl variant) and
`turbomind_free_model_info` (hybrid variant) are idempotent: after the
first application every freed pointer field is null (and, for the hybrid
model-info free, the whole struct is zeroed), and a second application
changes nothing and performs zero heap frees (no double free). -/
theorem C9_free_idempotent :
    (∀ r : TMTypes.ResponseData,
      ((TMImpl.turbomind_free_response (some r)).1.getD r).text = none ∧
      ((TMImpl.turbomind_free_response (some r)).1.getD r).error_message = none ∧
      TMImpl.turbomind_free_response (TMImpl.turbomind_free_response (some r)).1 =
        ((TMImpl.turbomind_free_response (some r)).1, 0)) ∧
    (∀ i : TMTypes.ModelInfo,
      (TMHybrid.turbomind_free_model_info (some i)).1 =
        some { model_name := none, model_type := none, vocab_size := 0,
               hidden_size := 0, num_layers := 0, max_position_embeddings := 0 } ∧
      TMHybrid.turbomind_free_model_info (TMHybrid.turbomind_free_model_info (some i)).1 =
        ((TMHybrid.turbomind_free_model_info (some i)).1, 0)) :=
  ⟨fun _ => ⟨rfl, rfl, rfl⟩, fun _ => ⟨rfl, rfl⟩⟩

/-! ## Claim C10: tensor map set/get round-trip -/

/-- Helper: `mapFind` after `mapAssign` on the same key returns the
assigned value. -/
theorem TMMinimal.tensorMapFind_assign_self (k : String) (t : Nat) :
    ∀ m : List (String × Nat),
      TMMinimal.mapFind k (TMMinimal.mapAssign k t m) = some t := by
  intro m
  induction m with
  | nil => simp [TMMinimal.mapAssign, TMMinimal.mapFind]
  | cons hd tl ih =>
    obtain ⟨k', v'⟩ := hd
    by_cases h : k' = k
    · simp [TMMinimal.mapAssign, TMMinimal.mapFind, h]
    · simp [TMMinimal.mapAssign, TMMinimal.mapFind, h, ih]

/-- Claim C10 (confirmed): for every non-null tensor map, key and tensor
handle, `turbomind_tensor_map_set` returns 0 and a subsequent
`turbomind_tensor_map_get` on the same key returns exactly the stored
handle — the entry is a borrow of the caller's tensor, not a copy. -/
theorem C10_tensor_map_roundtrip (m : TMMinimal.TensorMap) (k : String)
    (t : Nat) (gerr gerr' : String) :
    (TMMinimal.turbomind_tensor_map_set (some m) (some k) (some t) gerr).1 = 0 ∧
    (TMMinimal.turbomind_tensor_map_get
        (TMMinimal.turbomind_tensor_map_set (some m) (some k) (some t) gerr).2.1
        (some k) gerr').1 = some t := by
  refine ⟨rfl, ?_⟩
  show (TMMinimal.turbomind_tensor_map_get (some (TMMinimal.mapAssign k t m))
      (some k) gerr').1 = some t
  simp [TMMinimal.turbomind_tensor_map_get, TMMinimal.tensorMapFind_assign_self]

/-! ## Helper lemmas for the impl-variant generate -/

/-- Helper: `turbomind_generate` (impl) with a null engine, request or
response fails with "Invalid parameters" and touches nothing. -/
theorem TMImpl.gen_invalid (engine : Option TMImpl.TurboMindEngine)
    (request : Option TMTypes.RequestParams) (response : Option TMTypes.ResponseData)
    (gerr : String) (h : engine = none ∨ request = none ∨ response = none) :
    TMImpl.turbomind_generate engine request response gerr =
      ⟨-1, engine, response, "Invalid parameters"⟩ := by
  rcases engine with _ | e <;> rcases request with _ | r <;> rcases response with _ | p <;>
    first
      | rfl
      | simp at h

/-- Helper: `turbomind_generate` (impl) on a not-ready engine fails with
"Engine not ready" and changes nothing. -/
theorem TMImpl.gen_not_ready (eng : TMImpl.TurboMindEngine)
    (req : TMTypes.RequestParams) (resp : TMTypes.ResponseData) (gerr : String)
    (h : eng.ready = false) :
    TMImpl.turbomind_generate (some eng) (some req) (some resp) gerr =
      ⟨-1, some eng, some resp, "Engine not ready"⟩ := by
  simp [TMImpl.turbomind_generate, h]

/-- Helper: `turbomind_generate` (impl) on a ready engine with an empty
prompt fails with "Empty prompt" and changes nothing. -/
theorem TMImpl.gen_empty (eng : TMImpl.TurboMindEngine)
    (req : TMTypes.RequestParams) (resp : TMTypes.ResponseData) (gerr : String)
    (h1 : eng.ready = true) (h2 : TMTypes.safe_string_copy req.prompt = "") :
    TMImpl.turbomind_generate (some eng) (some req) (some resp) gerr =
      ⟨-1, some eng, some resp, "Empty prompt"⟩ := by
  simp [TMImpl.turbomind_generate, h1, h2]

/-- Helper: `turbomind_generate` (impl) on a ready engine with a non-empty
prompt succeeds, honouring a positive caller request id and otherwise
consuming the counter. -/
theorem TMImpl.gen_success (eng : TMImpl.TurboMindEngine)
    (req : TMTypes.RequestParams) (resp : TMTypes.ResponseData) (gerr : String)
    (h1 : eng.ready = true) (h2 : ¬ TMTypes.safe_string_copy req.prompt = "") :
    TMImpl.turbomind_generate (some eng) (some req) (some resp) gerr =
      ⟨0,
       some (if req.request_id > 0 then eng
             else { eng with next_request_id := eng.next_request_id + 1 }),
       some { request_id := if req.request_id > 0 then req.request_id else eng.next_request_id
              text := some ("This is a mock response to: " ++ TMTypes.safe_string_copy req.prompt)
              input_tokens := ((TMTypes.safe_string_copy req.prompt).length / 4 : Nat)
              output_tokens :=
                (("This is a mock response to: " ++ TMTypes.safe_string_copy req.prompt).length / 4 : Nat)
              finished := true
              error_code := 0
              error_message := none },
       gerr⟩ := by
  simp [TMImpl.turbomind_generate, h1, h2]

/-- Helper: a failing `turbomind_generate` (impl) call with non-null
arguments leaves both the engine and the caller's response unchanged. -/
theorem TMImpl.gen_fail_inv (eng : TMImpl.TurboMindEngine)
    (req : TMTypes.RequestParams) (resp : TMTypes.ResponseData) (gerr : String)
    (h : (TMImpl.turbomind_generate (some eng) (some req) (some resp) gerr).ret ≠ 0) :
    (TMImpl.turbomind_generate (some eng) (some req) (some resp) gerr).engine = some eng ∧
    (TMImpl.turbomind_generate (some eng) (some req) (some resp) gerr).response = some resp := by
  by_cases h1 : eng.ready = true
  · by_cases h2 : TMTypes.safe_string_copy req.prompt = ""
    · rw [TMImpl.gen_empty eng req resp gerr h1 h2]
      exact ⟨rfl, rfl⟩
    · rw [TMImpl.gen_success eng req resp gerr h1 h2] at h
      exact absurd rfl h
  · have h1' : eng.ready = false := by
      simpa using h1
    rw [TMImpl.gen_not_ready eng req resp gerr h1']
    exact ⟨rfl, rfl⟩

/-! ## Claim C5: generate argument validation and error precedence -/

/-- Claim C5 (confirmed): `turbomind_generate` (impl) returns -1 with
"Invalid parameters" for any null engine/request/response; a non-null but
not-ready engine yields -1 with "Engine not ready"; the two messages are
distinct; and the null check precedes the readiness check (a null request
on a not-ready engine still reports "Invalid parameters"). -/
theorem C5_generate_error_precedence :
    (∀ (engine : Option TMImpl.TurboMindEngine) (request : Option TMTypes.RequestParams)
        (response : Option TMTypes.ResponseData) (gerr : String),
      engine = none ∨ request = none ∨ response = none →
      TMImpl.turbomind_generate engine request response gerr =
        ⟨-1, engine, response, "Invalid parameters"⟩)
    ∧ (∀ (eng : TMImpl.TurboMindEngine) (req : TMTypes.RequestParams)
        (resp : TMTypes.ResponseData) (gerr : String), eng.ready = false →
      TMImpl.turbomind_generate (some eng) (some req) (some resp) gerr =
        ⟨-1, some eng, some resp, "Engine not ready"⟩)
    ∧ ("Invalid parameters" ≠ "Engine not ready")
    ∧ (∀ (eng : TMImpl.TurboMindEngine) (resp : TMTypes.ResponseData) (gerr : String),
      eng.ready = false →
      (TMImpl.turbomind_generate (some eng) none (some resp) gerr).last_error =
        "Invalid parameters") := by
  refine ⟨TMImpl.gen_invalid, TMImpl.gen_not_ready, by decide, ?_⟩
  intro eng resp gerr _
  rfl

/-- Witness for `C5_generate_error_precedence`: a null engine, a not-ready
engine, and a null request on a not-ready engine, all concrete. -/
theorem C5_witness :
    (TMImpl.turbomind_generate none (some TestData.helloReq)
        (some TestData.blankResponse) "" =
      ⟨-1, none, some TestData.blankResponse, "Invalid parameters"⟩) ∧
    (TMImpl.turbomind_generate (some TestData.downEngineI) (some TestData.helloReq)
        (some TestData.blankResponse) "" =
      ⟨-1, some TestData.downEngineI, some TestData.blankResponse, "Engine not ready"⟩) ∧
    ((TMImpl.turbomind_generate (some TestData.downEngineI) none
        (some TestData.blankResponse) "").last_error = "Invalid parameters") :=
  ⟨C5_generate_error_precedence.1 none (some TestData.helloReq)
      (some TestData.blankResponse) "" (Or.inl rfl),
   C5_generate_error_precedence.2.1 TestData.downEngineI TestData.helloReq
      TestData.blankResponse "" rfl,
   C5_generate_error_precedence.2.2.2 TestData.downEngineI TestData.blankResponse "" rfl⟩

/-! ## Helper lemmas for the wrapper-variant generate -/

/-- Helper: `turbomind_generate` (wrapper) on a not-ready engine fails with
"Engine not ready" and changes nothing. -/
theorem TMWrapper.wgen_not_ready (backend : TMWrapper.Backend)
    (eng : TMWrapper.TurboMindEngine) (req : TMTypes.RequestParams)
    (resp : TMTypes.ResponseData) (gerr : String) (h : eng.ready = false) :
    TMWrapper.turbomind_generate backend (some eng) (some req) (some resp) gerr =
      ⟨-1, some eng, some resp, "Engine not ready"⟩ := by
  simp [TMWrapper.turbomind_generate, h]

/-- Helper: when the backend `Generate` throws, the wrapper generate
returns -1 with the request still inserted in the active-request map. -/
theorem TMWrapper.wgen_throw (backend : TMWrapper.Backend)
    (eng : TMWrapper.TurboMindEngine) (req : TMTypes.RequestParams)
    (resp : TMTypes.ResponseData) (gerr w : String) (h1 : eng.ready = true)
    (hb : backend (TMWrapper.buildRequest eng req) = Except.error w) :
    TMWrapper.turbomind_generate backend (some eng) (some req) (some resp) gerr =
      ⟨-1, some (TMWrapper.insertRequest eng req), some resp,
       "Exception during generation: " ++ w⟩ := by
  simp [TMWrapper.turbomind_generate, h1, hb]

/-- Helper: when the backend `Generate` returns a null response, the
wrapper generate returns -1 with the request still inserted in the
active-request map. -/
theorem TMWrapper.wgen_null (backend : TMWrapper.Backend)
    (eng : TMWrapper.TurboMindEngine) (req : TMTypes.RequestParams)
    (resp : TMTypes.ResponseData) (gerr : String) (h1 : eng.ready = true)
    (hb : backend (TMWrapper.buildRequest eng req) = Except.ok none) :
    TMWrapper.turbomind_generate backend (some eng) (some req) (some resp) gerr =
      ⟨-1, some (TMWrapper.insertRequest eng req), some resp, "Generation failed"⟩ := by
  simp [TMWrapper.turbomind_generate, h1, hb]

/-- Helper: when the backend `Generate` succeeds, the wrapper generate
fills the response and erases the request from the active-request map. -/
theorem TMWrapper.wgen_ok (backend : TMWrapper.Backend)
    (eng : TMWrapper.TurboMindEngine) (req : TMTypes.RequestParams)
    (resp : TMTypes.ResponseData) (gerr : String) (tmr : TMWrapper.TMResponse)
    (h1 : eng.ready = true)
    (hb : backend (TMWrapper.buildRequest eng req) = Except.ok (some tmr)) :
    TMWrapper.turbomind_generate backend (some eng) (some req) (some resp) gerr =
      ⟨0, some (TMWrapper.eraseRequest (TMWrapper.insertRequest eng req)
                  (TMWrapper.assignedId eng req)),
       some (TMWrapper.fillResponse (TMWrapper.assignedId eng req) tmr), gerr⟩ := by
  simp [TMWrapper.turbomind_generate, h1, hb]

/-! ## Claim C3: request-ID assignment -/

/-- Helper: every id auto-assigned by a sequence of impl generate calls is
at least the engine's counter at the start of the sequence. -/
theorem TMImpl.autoIds_lb :
    ∀ (items : List (TMTypes.RequestParams × TMTypes.ResponseData))
      (eng : TMImpl.TurboMindEngine) (gerr : String),
      ∀ x ∈ TMImpl.autoIds eng gerr items, eng.next_request_id ≤ x := by
  intro items
  induction items with
  | nil =>
    intro eng gerr x hx
    simp [TMImpl.autoIds] at hx
  | cons item rest ih =>
    obtain ⟨r, resp⟩ := item
    intro eng gerr x hx
    by_cases h1 : eng.ready = true
    · by_cases h2 : TMTypes.safe_string_copy r.prompt = ""
      · have hgen := TMImpl.gen_empty eng r resp gerr h1 h2
        simp only [TMImpl.autoIds, hgen] at hx
        simp at hx
        exact ih eng "Empty prompt" x hx
      · by_cases hpos : r.request_id > 0
        · have hgen := TMImpl.gen_success eng r resp gerr h1 h2
          simp only [TMImpl.autoIds, hgen] at hx
          simp [hpos] at hx
          exact ih eng gerr x hx
        · have hgen := TMImpl.gen_success eng r resp gerr h1 h2
          simp only [TMImpl.autoIds, hgen] at hx
          simp [hpos] at hx
          rcases hx with rfl | hx
          · exact le_refl _
          · have := ih { eng with next_request_id := eng.next_request_id + 1 } gerr x hx
            simp at this
            omega
    · have h1' : eng.ready = false := by simpa using h1
      have hgen := TMImpl.gen_not_ready eng r resp gerr h1'
      simp only [TMImpl.autoIds, hgen] at hx
      simp at hx
      exact ih eng "Engine not ready" x hx

/-- Helper: the ids auto-assigned by a sequence of impl generate calls are
strictly increasing — each is strictly greater than every previously
auto-assigned one. -/
theorem TMImpl.autoIds_pairwise :
    ∀ (items : List (TMTypes.RequestParams × TMTypes.ResponseData))
      (eng : TMImpl.TurboMindEngine) (gerr : String),
      List.Pairwise (· < ·) (TMImpl.autoIds eng gerr items) := by
  intro items
  induction items with
  | nil =>
    intro eng gerr
    simp [TMImpl.autoIds]
  | cons item rest ih =>
    obtain ⟨r, resp⟩ := item
    intro eng gerr
    by_cases h1 : eng.ready = true
    · by_cases h2 : TMTypes.safe_string_copy r.prompt = ""
      · have hgen := TMImpl.gen_empty eng r resp gerr h1 h2
        simp only [TMImpl.autoIds, hgen]
        simp
        exact ih eng "Empty prompt"
      · by_cases hpos : r.request_id > 0
        · have hgen := TMImpl.gen_success eng r resp gerr h1 h2
          simp only [TMImpl.autoIds, hgen]
          simp [hpos]
          exact ih eng gerr
        · have hgen := TMImpl.gen_success eng r resp gerr h1 h2
          simp only [TMImpl.autoIds, hgen]
          simp only [hpos]
          simp
          refine ⟨?_, ih _ gerr⟩
          intro y hy
          have hlb := TMImpl.autoIds_lb rest
            { eng with next_request_id := eng.next_request_id + 1 } gerr y hy
          simp at hlb
          omega
    · have h1' : eng.ready = false := by simpa using h1
      have hgen := TMImpl.gen_not_ready eng r resp gerr h1'
      simp only [TMImpl.autoIds, hgen]
      simp
      exact ih eng "Engine not ready"

/-- Claim C3 (confirmed): on a successful generate, the response's request
id equals the caller's id when that is positive, and otherwise is the
engine's counter value with the counter incremented (shown for both
the impl and the wrapper variant); and the ids auto-assigned by any
sequence of impl generate calls on one engine are strictly increasing, so
each is strictly greater than every previously auto-assigned id. -/
theorem C3_request_id_assignment :
    (∀ (eng : TMImpl.TurboMindEngine) (req : TMTypes.RequestParams)
        (resp : TMTypes.ResponseData) (gerr : String),
      (TMImpl.turbomind_generate (some eng) (some req) (some resp) gerr).ret = 0 →
      (req.request_id > 0 →
        ((TMImpl.turbomind_generate (some eng) (some req) (some resp) gerr).response.getD
            resp).request_id = req.request_id) ∧
      (¬ req.request_id > 0 →
        ((TMImpl.turbomind_generate (some eng) (some req) (some resp) gerr).response.getD
            resp).request_id = eng.next_request_id ∧
        (TMImpl.turbomind_generate (some eng) (some req) (some resp) gerr).engine =
          some { eng with next_request_id := eng.next_request_id + 1 }))
    ∧ (∀ (backend : TMWrapper.Backend) (eng : TMWrapper.TurboMindEngine)
        (req : TMTypes.RequestParams) (resp : TMTypes.ResponseData) (gerr : String),
      (TMWrapper.turbomind_generate backend (some eng) (some req) (some resp) gerr).ret = 0 →
      (req.request_id > 0 →
        ((TMWrapper.turbomind_generate backend (some eng) (some req) (some resp)
            gerr).response.getD resp).request_id = req.request_id) ∧
      (¬ req.request_id > 0 →
        ((TMWrapper.turbomind_generate backend (some eng) (some req) (some resp)
            gerr).response.getD resp).request_id = eng.next_request_id ∧
        ∀ eng', (TMWrapper.turbomind_generate backend (some eng) (some req) (some resp)
            gerr).engine = some eng' →
          eng'.next_request_id = eng.next_request_id + 1))
    ∧ (∀ (eng : TMImpl.TurboMindEngine) (gerr : String)
        (items : List (TMTypes.RequestParams × TMTypes.ResponseData)),
      List.Pairwise (· < ·) (TMImpl.autoIds eng gerr items)) := by
  refine ⟨?_, ?_, fun eng gerr items => TMImpl.autoIds_pairwise items eng gerr⟩
  · intro eng req resp gerr hret
    by_cases h1 : eng.ready = true
    · by_cases h2 : TMTypes.safe_string_copy req.prompt = ""
      · rw [TMImpl.gen_empty eng req resp gerr h1 h2] at hret
        simp at hret
      · have hgen := TMImpl.gen_success eng req resp gerr h1 h2
        rw [hgen]
        constructor
        · intro hpos
          simp [hpos]
        · intro hpos
          simp [hpos]
    · have h1' : eng.ready = false := by simpa using h1
      rw [TMImpl.gen_not_ready eng req resp gerr h1'] at hret
      simp at hret
  · intro backend eng req resp gerr hret
    by_cases h1 : eng.ready = true
    · cases hb : backend (TMWrapper.buildRequest eng req) with
      | error w =>
        rw [TMWrapper.wgen_throw backend eng req resp gerr w h1 hb] at hret
        simp at hret
      | ok o =>
        cases o with
        | none =>
          rw [TMWrapper.wgen_null backend eng req resp gerr h1 hb] at hret
          simp at hret
        | some tmr =>
          have hgen := TMWrapper.wgen_ok backend eng req resp gerr tmr h1 hb
          rw [hgen]
          constructor
          · intro hpos
            simp [TMWrapper.fillResponse, TMWrapper.assignedId, hpos]
          · intro hpos
            refine ⟨by simp [TMWrapper.fillResponse, TMWrapper.assignedId, hpos], ?_⟩
            intro eng' heq
            simp only [Option.some.injEq] at heq
            subst heq
            simp [TMWrapper.eraseRequest, TMWrapper.insertRequest, hpos]
    · have h1' : eng.ready = false := by simpa using h1
      rw [TMWrapper.wgen_not_ready backend eng req resp gerr h1'] at hret
      simp at hret

/-- Witness for `C3_request_id_assignment`: a concrete successful generate
with caller id 5 yields response id 5 in both variants, and a concrete
two-call auto-assignment sequence is strictly increasing. -/
theorem C3_witness :
    ((TMImpl.turbomind_generate (some TestData.readyEngineI) (some TestData.helloReq)
        (some TestData.blankResponse) "").response.getD TestData.blankResponse).request_id = 5 ∧
    ((TMWrapper.turbomind_generate TestData.okBackendW (some TestData.readyEngineW)
        (some TestData.helloReq) (some TestData.blankResponse) "").response.getD
        TestData.blankResponse).request_id = 5 ∧
    List.Pairwise (· < ·) (TMImpl.autoIds TestData.readyEngineI ""
      [(TestData.autoReq, TestData.blankResponse),
       (TestData.autoReq, TestData.blankResponse)]) :=
  ⟨(C3_request_id_assignment.1 TestData.readyEngineI TestData.helloReq
      TestData.blankResponse "" rfl).1 (by decide),
   (C3_request_id_assignment.2.1 TestData.okBackendW TestData.readyEngineW
      TestData.helloReq TestData.blankResponse "" rfl).1 (by decide),
   C3_request_id_assignment.2.2 TestData.readyEngineI ""
      [(TestData.autoReq, TestData.blankResponse),
       (TestData.autoReq, TestData.blankResponse)]⟩

/-! ## Claim C4: batch generation is fail-fast -/

/-- Helper: the per-item trace has one entry per batch item. -/
theorem TMImpl.genTrace_length :
    ∀ (items : List (TMTypes.RequestParams × TMTypes.ResponseData))
      (eng : TMImpl.TurboMindEngine) (gerr : String),
      (TMImpl.genTrace eng gerr items).length = items.length := by
  intro items
  induction items with
  | nil => intro eng gerr; rfl
  | cons item rest ih =>
    obtain ⟨r, resp⟩ := item
    intro eng gerr
    simp [TMImpl.genTrace, ih]

/-- Helper: when the first failing item of the batch loop is at index k,
the loop returns that item's code, the responses before k are exactly those
of the individual calls, and the response structs from k on are left
untouched. -/
theorem TMImpl.batchLoop_spec :
    ∀ (items : List (TMTypes.RequestParams × TMTypes.ResponseData))
      (eng : TMImpl.TurboMindEngine) (gerr : String) (k : Nat) (c : Int)
      (respk : TMTypes.ResponseData),
      (∀ p ∈ (TMImpl.genTrace eng gerr items).take k, p.1 = 0) →
      (TMImpl.genTrace eng gerr items)[k]? = some (c, respk) →
      c ≠ 0 →
      (TMImpl.batchLoop eng gerr items).1 = c ∧
      (TMImpl.batchLoop eng gerr items).2.2.1 =
        ((TMImpl.genTrace eng gerr items).map Prod.snd).take k ++
          (items.map Prod.snd).drop k := by
  intro items
  induction items with
  | nil =>
    intro eng gerr k c respk _ h2 _
    simp [TMImpl.genTrace] at h2
  | cons item rest ih =>
    obtain ⟨r, resp⟩ := item
    intro eng gerr k c respk h1 h2 h3
    cases k with
    | zero =>
      simp only [TMImpl.genTrace, List.getElem?_cons_zero, Option.some.injEq] at h2
      have hret : (TMImpl.turbomind_generate (some eng) (some r) (some resp) gerr).ret = c := by
        have := congrArg Prod.fst h2
        simpa using this
      have hresp :=
        (TMImpl.gen_fail_inv eng r resp gerr (by rw [hret]; exact h3)).2
      constructor
      · simp [TMImpl.batchLoop, hret, if_neg h3]
      · simp [TMImpl.batchLoop, hret, if_neg h3, TMImpl.genTrace, hresp]
    | succ k' =>
      have hret0 : (TMImpl.turbomind_generate (some eng) (some r) (some resp) gerr).ret = 0 := by
        apply h1 ((TMImpl.turbomind_generate (some eng) (some r) (some resp) gerr).ret,
          (TMImpl.turbomind_generate (some eng) (some r) (some resp) gerr).response.getD resp)
        simp [TMImpl.genTrace, List.take_succ_cons]
      simp only [TMImpl.genTrace, List.getElem?_cons_succ] at h2
      have h1' : ∀ p ∈ (TMImpl.genTrace
          ((TMImpl.turbomind_generate (some eng) (some r) (some resp) gerr).engine.getD eng)
          (TMImpl.turbomind_generate (some eng) (some r) (some resp) gerr).last_error
          rest).take k', p.1 = 0 := by
        intro p hp
        apply h1
        simp only [TMImpl.genTrace, List.take_succ_cons]
        exact List.mem_cons_of_mem _ hp
      have hrec := ih _ _ k' c respk h1' h2 h3
      simp only [TMImpl.batchLoop]
      rw [if_pos hret0]
      refine ⟨hrec.1, ?_⟩
      simp only [TMImpl.genTrace, List.map_cons, List.take_succ_cons,
        List.drop_succ_cons, List.cons_append]
      exact congrArg (List.cons _) hrec.2

/-- Claim C4 (confirmed): when item k (0-indexed) is the first failing item
of a batch, `turbomind_generate_batch` (impl) returns that item's failure
code, responses[0..k) equal those produced by calling `turbomind_generate`
individually on each of the first k requests in order, and responses[k..N)
are the caller's original (unpopulated) structs. -/
theorem C4_batch_fail_fast (eng : TMImpl.TurboMindEngine) (gerr : String)
    (items : List (TMTypes.RequestParams × TMTypes.ResponseData)) (k : Nat)
    (c : Int) (respk : TMTypes.ResponseData)
    (h1 : ∀ p ∈ (TMImpl.genTrace eng gerr items).take k, p.1 = 0)
    (h2 : (TMImpl.genTrace eng gerr items)[k]? = some (c, respk))
    (h3 : c ≠ 0) :
    (TMImpl.turbomind_generate_batch (some eng) (some items) gerr).1 = c ∧
    (TMImpl.turbomind_generate_batch (some eng) (some items) gerr).2.2.1 =
      ((TMImpl.genTrace eng gerr items).map Prod.snd).take k ++
        (items.map Prod.snd).drop k := by
  have hk : k < (TMImpl.genTrace eng gerr items).length := by
    obtain ⟨hk, -⟩ := List.getElem?_eq_some.mp h2
    exact hk
  have hlen : 0 < items.length := by
    rw [TMImpl.genTrace_length items eng gerr] at hk
    omega
  have hspec := TMImpl.batchLoop_spec items eng gerr k c respk h1 h2 h3
  have hne : ¬ items.length ≤ 0 := by omega
  simp only [TMImpl.turbomind_generate_batch, if_neg hne]
  exact hspec

/-- Witness for `C4_batch_fail_fast`: a concrete two-item batch whose first
item has an empty prompt fails at index 0 with code -1 and leaves both
response structs untouched. -/
theorem C4_witness :
    (TMImpl.turbomind_generate_batch (some TestData.readyEngineI)
        (some [(TestData.emptyPromptReq, TestData.blankResponse),
               (TestData.helloReq, TestData.blankResponse)]) "").1 = -1 ∧
    (TMImpl.turbomind_generate_batch (some TestData.readyEngineI)
        (some [(TestData.emptyPromptReq, TestData.blankResponse),
               (TestData.helloReq, TestData.blankResponse)]) "").2.2.1 =
      ((TMImpl.genTrace TestData.readyEngineI ""
          [(TestData.emptyPromptReq, TestData.blankResponse),
           (TestData.helloReq, TestData.blankResponse)]).map Prod.snd).take 0 ++
        ([(TestData.emptyPromptReq, TestData.blankResponse),
          (TestData.helloReq, TestData.blankResponse)].map Prod.snd).drop 0 :=
  C4_batch_fail_fast TestData.readyEngineI ""
    [(TestData.emptyPromptReq, TestData.blankResponse),
     (TestData.helloReq, TestData.blankResponse)] 0 (-1) TestData.blankResponse
    (by simp) (by rfl) (by decide)

/-! ## Claim C6: active-request map bookkeeping -/

/-- Helper: `mapFind` after `mapAssign` on the same key returns the
assigned value. -/
theorem TMWrapper.mapFind_mapAssign_self (k : Int) (v : TMWrapper.TMRequest) :
    ∀ m : List (Int × TMWrapper.TMRequest),
      TMWrapper.mapFind k (TMWrapper.mapAssign k v m) = some v := by
  intro m
  induction m with
  | nil => simp [TMWrapper.mapAssign, TMWrapper.mapFind]
  | cons hd tl ih =>
    obtain ⟨k', v'⟩ := hd
    by_cases h : k' = k
    · simp [TMWrapper.mapAssign, TMWrapper.mapFind, h]
    · simp [TMWrapper.mapAssign, TMWrapper.mapFind, h, ih]

/-- Helper: every key of `mapAssign k v m` is `k` or a key of `m`. -/
theorem TMWrapper.mapAssign_keys (k : Int) (v : TMWrapper.TMRequest) :
    ∀ (m : List (Int × TMWrapper.TMRequest)) (x : Int),
      x ∈ (TMWrapper.mapAssign k v m).map Prod.fst →
      x = k ∨ x ∈ m.map Prod.fst := by
  intro m
  induction m with
  | nil =>
    intro x hx
    simp [TMWrapper.mapAssign] at hx
    exact Or.inl hx
  | cons hd tl ih =>
    obtain ⟨k', v'⟩ := hd
    intro x hx
    by_cases h : k' = k
    · simp only [TMWrapper.mapAssign, if_pos h, List.map_cons, List.mem_cons] at hx
      rcases hx with rfl | hx
      · exact Or.inl h
      · exact Or.inr (by simp [hx])
    · simp only [TMWrapper.mapAssign, if_neg h, List.map_cons, List.mem_cons] at hx
      rcases hx with rfl | hx
      · exact Or.inr (by simp)
      · rcases ih x hx with h' | h'
        · exact Or.inl h'
        · exact Or.inr (by simp [h'])

/-- Helper: `mapAssign` preserves key uniqueness. -/
theorem TMWrapper.mapAssign_nodup (k : Int) (v : TMWrapper.TMRequest) :
    ∀ m : List (Int × TMWrapper.TMRequest),
      (m.map Prod.fst).Nodup →
      ((TMWrapper.mapAssign k v m).map Prod.fst).Nodup := by
  intro m
  induction m with
  | nil =>
    intro _
    simp [TMWrapper.mapAssign]
  | cons hd tl ih =>
    obtain ⟨k', v'⟩ := hd
    intro hnd
    simp only [List.map_cons, List.nodup_cons] at hnd
    by_cases h : k' = k
    · simp only [TMWrapper.mapAssign, if_pos h, List.map_cons, List.nodup_cons]
      exact ⟨hnd.1, hnd.2⟩
    · simp only [TMWrapper.mapAssign, if_neg h, List.map_cons, List.nodup_cons]
      refine ⟨?_, ih hnd.2⟩
      intro hmem
      rcases TMWrapper.mapAssign_keys k v tl k' hmem with rfl | hmem'
      · exact h rfl
      · exact hnd.1 hmem'

/-- Helper: the keys of `mapErase k m` form a sublist of the keys of `m`. -/
theorem TMWrapper.mapErase_keys_sublist (k : Int) :
    ∀ m : List (Int × TMWrapper.TMRequest),
      ((TMWrapper.mapErase k m).map Prod.fst).Sublist (m.map Prod.fst) := by
  intro m
  induction m with
  | nil => simp [TMWrapper.mapErase]
  | cons hd tl ih =>
    obtain ⟨k', v'⟩ := hd
    by_cases h : k' = k
    · simp only [TMWrapper.mapErase, if_pos h, List.map_cons]
      exact List.sublist_cons_of_sublist _ (List.Sublist.refl _)
    · simp only [TMWrapper.mapErase, if_neg h, List.map_cons]
      exact List.Sublist.cons₂ _ ih

/-- Helper: a key absent from a map is not found. -/
theorem TMWrapper.mapFind_eq_none (k : Int) :
    ∀ m : List (Int × TMWrapper.TMRequest),
      k ∉ m.map Prod.fst → TMWrapper.mapFind k m = none := by
  intro m
  induction m with
  | nil => intro _; rfl
  | cons hd tl ih =>
    obtain ⟨k', v'⟩ := hd
    intro hk
    simp only [List.map_cons, List.mem_cons] at hk
    push_neg at hk
    have h1 : ¬ k' = k := fun h => hk.1 h.symm
    simp [TMWrapper.mapFind, h1, ih hk.2]

/-- Helper: erasing a key from a unique-keyed map removes it entirely. -/
theorem TMWrapper.mapFind_mapErase_self (k : Int) :
    ∀ m : List (Int × TMWrapper.TMRequest),
      (m.map Prod.fst).Nodup →
      TMWrapper.mapFind k (TMWrapper.mapErase k m) = none := by
  intro m
  induction m with
  | nil => intro _; rfl
  | cons hd tl ih =>
    obtain ⟨k', v'⟩ := hd
    intro hnd
    simp only [List.map_cons, List.nodup_cons] at hnd
    by_cases h : k' = k
    · simp only [TMWrapper.mapErase, if_pos h]
      subst h
      exact TMWrapper.mapFind_eq_none k' tl hnd.1
    · simp [TMWrapper.mapFind, TMWrapper.mapErase, h, ih hnd.2]

/-- Claim C6 (counterexample): when the backend `Generate` returns a null
response, the wrapper-variant `turbomind_generate` returns -1 but the entry
it inserted for the call's request id is NOT erased: it is still in the
active-request map after the call returns, contradicting the claim that
the entry is erased after every call, whether it succeeds or fails. -/
theorem C6_counterexample :
    (TMWrapper.turbomind_generate TestData.nullRespBackend (some TestData.readyEngineW)
        (some TestData.helloReq) (some TestData.blankResponse) "").ret = -1 ∧
    ((TMWrapper.turbomind_generate TestData.nullRespBackend (some TestData.readyEngineW)
        (some TestData.helloReq) (some TestData.blankResponse) "").engine.getD
        TestData.readyEngineW).active_requests =
      [(5, { id := 5, prompt := "Hello", max_new_tokens := 512, top_k := 40,
             stream := false })] :=
  ⟨rfl, rfl⟩

/-- Claim C6 (amended): the active-request map holds at most one entry per
request id at any time (every generate call preserves key uniqueness);
after every SUCCESSFUL generate call the entry for that call's request id
has been erased; but when the backend fails after insertion, the failing
call (return -1) leaves the entry in the map, where it stays until
`turbomind_destroy_engine` clears the map during teardown. -/
theorem C6_active_request_bookkeeping :
    (∀ (backend : TMWrapper.Backend) (eng : TMWrapper.TurboMindEngine)
        (req : TMTypes.RequestParams) (resp : TMTypes.ResponseData) (gerr : String)
        (eng' : TMWrapper.TurboMindEngine),
      (eng.active_requests.map Prod.fst).Nodup →
      (TMWrapper.turbomind_generate backend (some eng) (some req) (some resp)
          gerr).engine = some eng' →
      (eng'.active_requests.map Prod.fst).Nodup)
    ∧ (∀ (backend : TMWrapper.Backend) (eng : TMWrapper.TurboMindEngine)
        (req : TMTypes.RequestParams) (resp : TMTypes.ResponseData) (gerr : String),
      (eng.active_requests.map Prod.fst).Nodup →
      (TMWrapper.turbomind_generate backend (some eng) (some req) (some resp) gerr).ret = 0 →
      TMWrapper.mapFind (TMWrapper.assignedId eng req)
        ((TMWrapper.turbomind_generate backend (some eng) (some req) (some resp)
            gerr).engine.getD eng).active_requests = none)
    ∧ (∀ (backend : TMWrapper.Backend) (eng : TMWrapper.TurboMindEngine)
        (req : TMTypes.RequestParams) (resp : TMTypes.ResponseData) (gerr : String),
      eng.ready = true →
      (TMWrapper.turbomind_generate backend (some eng) (some req) (some resp) gerr).ret ≠ 0 →
      TMWrapper.mapFind (TMWrapper.assignedId eng req)
        ((TMWrapper.turbomind_generate backend (some eng) (some req) (some resp)
            gerr).engine.getD eng).active_requests =
        some (TMWrapper.buildRequest eng req))
    ∧ (∀ eng : TMWrapper.TurboMindEngine,
      TMWrapper.turbomind_destroy_engine (some eng) =
        some { eng with ready := false, active_requests := [] }) := by
  refine ⟨?_, ?_, ?_, fun eng => rfl⟩
  · intro backend eng req resp gerr eng' hnd heq
    by_cases h1 : eng.ready = true
    · cases hb : backend (TMWrapper.buildRequest eng req) with
      | error w =>
        rw [TMWrapper.wgen_throw backend eng req resp gerr w h1 hb] at heq
        simp only [Option.some.injEq] at heq
        subst heq
        exact TMWrapper.mapAssign_nodup _ _ _ hnd
      | ok o =>
        cases o with
        | none =>
          rw [TMWrapper.wgen_null backend eng req resp gerr h1 hb] at heq
          simp only [Option.some.injEq] at heq
          subst heq
          exact TMWrapper.mapAssign_nodup _ _ _ hnd
        | some tmr =>
          rw [TMWrapper.wgen_ok backend eng req resp gerr tmr h1 hb] at heq
          simp only [Option.some.injEq] at heq
          subst heq
          exact List.Nodup.sublist
            (TMWrapper.mapErase_keys_sublist _ _)
            (TMWrapper.mapAssign_nodup _ _ _ hnd)
    · have h1' : eng.ready = false := by simpa using h1
      rw [TMWrapper.wgen_not_ready backend eng req resp gerr h1'] at heq
      simp only [Option.some.injEq] at heq
      subst heq
      exact hnd
  · intro backend eng req resp gerr hnd hret
    by_cases h1 : eng.ready = true
    · cases hb : backend (TMWrapper.buildRequest eng req) with
      | error w =>
        rw [TMWrapper.wgen_throw backend eng req resp gerr w h1 hb] at hret
        simp at hret
      | ok o =>
        cases o with
        | none =>
          rw [TMWrapper.wgen_null backend eng req resp gerr h1 hb] at hret
          simp at hret
        | some tmr =>
          rw [TMWrapper.wgen_ok backend eng req resp gerr tmr h1 hb]
          simp only [Option.getD_some]
          exact TMWrapper.mapFind_mapErase_self _ _
            (TMWrapper.mapAssign_nodup _ _ _ hnd)
    · have h1' : eng.ready = false := by simpa using h1
      rw [TMWrapper.wgen_not_ready backend eng req resp gerr h1'] at hret
      simp at hret
  · intro backend eng req resp gerr h1 hret
    cases hb : backend (TMWrapper.buildRequest eng req) with
    | error w =>
      rw [TMWrapper.wgen_throw backend eng req resp gerr w h1 hb]
      simp only [Option.getD_some]
      exact TMWrapper.mapFind_mapAssign_self _ _ _
    | ok o =>
      cases o with
      | none =>
        rw [TMWrapper.wgen_null backend eng req resp gerr h1 hb]
        simp only [Option.getD_some]
        exact TMWrapper.mapFind_mapAssign_self _ _ _
      | some tmr =>
        rw [TMWrapper.wgen_ok backend eng req resp gerr tmr h1 hb] at hret
        simp at hret

/-- Witness for `C6_active_request_bookkeeping`: on a concrete ready
engine with an empty map, a successful call leaves no entry for its request
id, and a backend-null failure leaves the inserted entry in the map. -/
theorem C6_witness :
    (TMWrapper.mapFind (TMWrapper.assignedId TestData.readyEngineW TestData.helloReq)
        ((TMWrapper.turbomind_generate TestData.okBackendW (some TestData.readyEngineW)
            (some TestData.helloReq) (some TestData.blankResponse)
            "").engine.getD TestData.readyEngineW).active_requests = none) ∧
    (TMWrapper.mapFind (TMWrapper.assignedId TestData.readyEngineW TestData.helloReq)
        ((TMWrapper.turbomind_generate TestData.nullRespBackend (some TestData.readyEngineW)
            (some TestData.helloReq) (some TestData.blankResponse)
            "").engine.getD TestData.readyEngineW).active_requests =
      some (TMWrapper.buildRequest TestData.readyEngineW TestData.helloReq)) :=
  ⟨C6_active_request_bookkeeping.2.1 TestData.okBackendW TestData.readyEngineW
      TestData.helloReq TestData.blankResponse "" (by simp [TestData.readyEngineW]) rfl,
   C6_active_request_bookkeeping.2.2.1 TestData.nullRespBackend TestData.readyEngineW
      TestData.helloReq TestData.blankResponse "" rfl (by decide)⟩

/-! ## Claim C7: tensor byte size -/

/-- Helper: the plain product of an all-positive shape is positive. -/
theorem TMMinimal.natProd_pos :
    ∀ sh : List Int, (∀ d ∈ sh, 0 < d) → 0 < TMMinimal.natProd sh := by
  intro sh
  induction sh with
  | nil => intro _; simp [TMMinimal.natProd]
  | cons d rest ih =>
    intro hpos
    have hd := hpos d (List.mem_cons_self d rest)
    have hr := ih (fun x hx => hpos x (List.mem_cons_of_mem d hx))
    have hdpos : 0 < d.toNat := by omega
    simp only [TMMinimal.natProd, List.map_cons, List.prod_cons]
    exact Nat.mul_pos hdpos hr

/-- Helper: the code's per-dimension multiplier is positive for every data
type. -/
theorem TMMinimal.dtypeMultiplier_pos (dt : TMTypes.TurboMindDataType) :
    0 < TMMinimal.dtypeMultiplier dt := by
  cases dt <;> simp [TMMinimal.dtypeMultiplier]

/-- Helper: the `size_t` fold of the tensor constructor computes the plain
product when every dimension is positive and no step overflows. -/
theorem TMMinimal.sizeFold_eq :
    ∀ (sh : List Int) (acc : Nat),
      (∀ d ∈ sh, 0 < d ∧ d < (TMMinimal.size_t_mod : Int)) →
      acc * TMMinimal.natProd sh < TMMinimal.size_t_mod →
      sh.foldl (fun a d =>
        a * ((d % (TMMinimal.size_t_mod : Int)).toNat) % TMMinimal.size_t_mod) acc =
        acc * TMMinimal.natProd sh := by
  intro sh
  induction sh with
  | nil =>
    intro acc _ _
    simp [TMMinimal.natProd]
  | cons d rest ih =>
    intro acc hpos hb
    have hd := hpos d (List.mem_cons_self d rest)
    have hmod : d % (TMMinimal.size_t_mod : Int) = d :=
      Int.emod_emod_of_dvd d dvd_rfl ▸ Int.emod_eq_of_lt (le_of_lt hd.1) hd.2
    have hnp : TMMinimal.natProd (d :: rest) = d.toNat * TMMinimal.natProd rest := by
      simp [TMMinimal.natProd]
    have hrestpos : 0 < TMMinimal.natProd rest :=
      TMMinimal.natProd_pos rest (fun x hx => (hpos x (List.mem_cons_of_mem d hx)).1)
    have hstep_le : acc * d.toNat ≤ acc * TMMinimal.natProd (d :: rest) := by
      rw [hnp, ← Nat.mul_assoc]
      exact Nat.le_mul_of_pos_right _ hrestpos
    have hstep : acc * d.toNat < TMMinimal.size_t_mod := lt_of_le_of_lt hstep_le hb
    have hb' : acc * d.toNat * TMMinimal.natProd rest < TMMinimal.size_t_mod := by
      rw [Nat.mul_assoc, ← hnp]
      exact hb
    simp only [List.foldl_cons]
    rw [hmod, Nat.mod_eq_of_lt hstep,
      ih (acc * d.toNat) (fun x hx => hpos x (List.mem_cons_of_mem d hx)) hb',
      hnp, Nat.mul_assoc]

/-- Helper: the `size_t` fold from accumulator 0 stays 0. -/
theorem TMMinimal.sizeFold_zero_acc :
    ∀ sh : List Int,
      sh.foldl (fun a d =>
        a * ((d % (TMMinimal.size_t_mod : Int)).toNat) % TMMinimal.size_t_mod) 0 = 0 := by
  intro sh
  induction sh with
  | nil => rfl
  | cons d rest ih =>
    simp only [List.foldl_cons, Nat.zero_mul, Nat.zero_mod]
    exact ih

/-- Helper: a zero dimension anywhere drives the `size_t` fold to 0. -/
theorem TMMinimal.sizeFold_zero_mem :
    ∀ (sh : List Int) (acc : Nat), (0 : Int) ∈ sh →
      sh.foldl (fun a d =>
        a * ((d % (TMMinimal.size_t_mod : Int)).toNat) % TMMinimal.size_t_mod) acc = 0 := by
  intro sh
  induction sh with
  | nil =>
    intro acc h
    simp at h
  | cons d rest ih =>
    intro acc hmem
    by_cases hd : d = 0
    · subst hd
      simp only [List.foldl_cons, Int.zero_emod, Int.toNat_zero, Nat.mul_zero, Nat.zero_mod]
      exact TMMinimal.sizeFold_zero_acc rest
    · have hmem' : (0 : Int) ∈ rest := by
        rcases List.mem_cons.mp hmem with h | h
        · exact absurd h.symm hd
        · exact h
      simp only [List.foldl_cons]
      exact ih _ hmem'

/-- Claim C7 (counterexample): the minimal-test tensor implementation uses
multiplier 4 for every non-FP16 data type, so an INT8 tensor of shape [1]
has byte size 4, not the 1 byte (product 1 × width 1) the claim's width
table prescribes for INT8. -/
theorem C7_counterexample :
    (TMMinimal.turbomind_get_tensor_size
        (TMMinimal.turbomind_create_tensor (some 0) (some [1])
          TMTypes.TurboMindDataType.int8 TMTypes.TurboMindMemoryType.cpu 0 "").1 "").1 = 4 ∧
    TMMinimal.natProd [1] * TMMinimal.specDtypeWidth TMTypes.TurboMindDataType.int8 = 1 ∧
    (4 : Nat) ≠ 1 :=
  ⟨rfl, rfl, by decide⟩

/-- Claim C7 (amended): for every tensor built by
`turbomind_create_tensor` (minimal-test variant), the byte size returned by
`turbomind_get_tensor_size` is the product of the shape dimensions times
the code's per-dtype multiplier — 2 for FP16 and 4 for every other data
type — provided no `size_t` overflow occurs; and any shape containing a
zero dimension yields byte size 0. -/
theorem C7_tensor_size (data : Option Nat) (sh : List Int)
    (dt : TMTypes.TurboMindDataType) (mt : TMTypes.TurboMindMemoryType)
    (dev : Int) (gerr gerr' : String) (t : TMMinimal.TurboMindTensor)
    (hcreate : (TMMinimal.turbomind_create_tensor data (some sh) dt mt dev gerr).1 = some t) :
    ((0 : Int) ∈ sh → (TMMinimal.turbomind_get_tensor_size (some t) gerr').1 = 0) ∧
    ((∀ d ∈ sh, 0 < d ∧ d < (TMMinimal.size_t_mod : Int)) →
      TMMinimal.natProd sh * TMMinimal.dtypeMultiplier dt < TMMinimal.size_t_mod →
      (TMMinimal.turbomind_get_tensor_size (some t) gerr').1 =
        TMMinimal.natProd sh * TMMinimal.dtypeMultiplier dt) := by
  have hsize : t.size_bytes = TMMinimal.sizeBytesCalc sh dt := by
    rcases data with _ | dptr
    · simp [TMMinimal.turbomind_create_tensor] at hcreate
    · by_cases hlen : sh.length ≤ 0
      · simp [TMMinimal.turbomind_create_tensor, hlen] at hcreate
      · simp only [TMMinimal.turbomind_create_tensor, if_neg hlen,
          Option.some.injEq] at hcreate
        rw [← hcreate]
  constructor
  · intro hmem
    show t.size_bytes = 0
    rw [hsize]
    simp only [TMMinimal.sizeBytesCalc, TMMinimal.sizeFold_zero_mem sh 1 hmem,
      Nat.zero_mul, Nat.zero_mod]
  · intro hpos hb
    show t.size_bytes = TMMinimal.natProd sh * TMMinimal.dtypeMultiplier dt
    rw [hsize]
    have hfold : sh.foldl (fun a d =>
        a * ((d % (TMMinimal.size_t_mod : Int)).toNat) % TMMinimal.size_t_mod) 1 =
        TMMinimal.natProd sh := by
      have hb1 : 1 * TMMinimal.natProd sh < TMMinimal.size_t_mod := by
        have : TMMinimal.natProd sh ≤ TMMinimal.natProd sh * TMMinimal.dtypeMultiplier dt :=
          Nat.le_mul_of_pos_right _ (TMMinimal.dtypeMultiplier_pos dt)
        omega
      have := TMMinimal.sizeFold_eq sh 1 hpos hb1
      simpa using this
    simp only [TMMinimal.sizeBytesCalc, hfold]
    exact Nat.mod_eq_of_lt hb

/-- Witness for `C7_tensor_size`: the concrete FP32 tensor of shape [2,3]
has byte size 24 = 6 × 4. -/
theorem C7_witness :
    (TMMinimal.turbomind_get_tensor_size (some TestData.tensor23) "").1 =
      TMMinimal.natProd [2, 3] *
        TMMinimal.dtypeMultiplier TMTypes.TurboMindDataType.fp32 :=
  (C7_tensor_size (some 0) [2, 3] TMTypes.TurboMindDataType.fp32
      TMTypes.TurboMindMemoryType.cpu 0 "" "" TestData.tensor23 rfl).2
    (by decide) (by decide)

/-! ## Claim C8: forward validation and token-id array handling -/

/-- Claim C8 (counterexample): a generation config with a null eos pointer
but a positive eos count is NOT rejected by `turbomind_forward`: the array
is silently skipped (the backend config gets an empty eos list) and the
call proceeds to a successful result, contradicting the claim that the
mismatch is rejected. -/
theorem C8_counterexample :
    (TMProper.turbomind_forward TestData.okBackendP (some 1) (some 2)
        (some TestData.sessionA) (some TestData.gcMismatch) false "").1.isSome = true ∧
    (TMProper.build_generation_config TestData.gcMismatch).eos_ids = [] ∧
    TestData.gcMismatch.eos_ids = none ∧
    TestData.gcMismatch.eos_ids_count = 3 :=
  ⟨rfl, rfl, rfl, rfl⟩

/-- Claim C8 (amended): `turbomind_forward` rejects any null
instance/inputs/session/config argument with "Invalid parameters for
forward", touching none of them; each eos/stop/bad token-id array is copied
into the backend config exactly when its pointer is non-null and its count
is positive — a mismatched pointer/count pair causes that array to be
skipped (left empty, never dereferenced) while the call itself proceeds
normally to the backend. -/
theorem C8_forward_validation :
    (∀ (backend : TMProper.Backend) (inst input_tensors : Option Nat)
        (session : Option TMProper.TurboMindSession)
        (gen_config : Option TMProper.TurboMindGenerationConfig)
        (stream_output : Bool) (gerr : String),
      inst = none ∨ input_tensors = none ∨ session = none ∨ gen_config = none →
      TMProper.turbomind_forward backend inst input_tensors session gen_config
          stream_output gerr = (none, "Invalid parameters for forward"))
    ∧ (∀ gc : TMProper.TurboMindGenerationConfig,
      ((gc.eos_ids = none ∨ gc.eos_ids_count ≤ 0) →
        (TMProper.build_generation_config gc).eos_ids = []) ∧
      (∀ l, gc.eos_ids = some l → gc.eos_ids_count > 0 →
        (TMProper.build_generation_config gc).eos_ids = l.take gc.eos_ids_count.toNat) ∧
      ((gc.stop_ids = none ∨ gc.stop_ids_count ≤ 0) →
        (TMProper.build_generation_config gc).stop_ids0 = []) ∧
      (∀ l, gc.stop_ids = some l → gc.stop_ids_count > 0 →
        (TMProper.build_generation_config gc).stop_ids0 = l.take gc.stop_ids_count.toNat) ∧
      ((gc.bad_ids = none ∨ gc.bad_ids_count ≤ 0) →
        (TMProper.build_generation_config gc).bad_ids0 = []) ∧
      (∀ l, gc.bad_ids = some l → gc.bad_ids_count > 0 →
        (TMProper.build_generation_config gc).bad_ids0 = l.take gc.bad_ids_count.toNat))
    ∧ (∀ (backend : TMProper.Backend) (i tm : Nat) (s : TMProper.TurboMindSession)
        (gc : TMProper.TurboMindGenerationConfig) (st : Bool) (gerr : String) (o : Nat),
      backend { tensors := tm, session := TMProper.build_session_param s,
                gen_cfg := TMProper.build_generation_config gc,
                stream_output := st } = Except.ok o →
      TMProper.turbomind_forward backend (some i) (some tm) (some s) (some gc) st gerr =
        (some { tensors := o, status := .completed, seq_len := 0 }, gerr)) := by
  refine ⟨?_, ?_, ?_⟩
  · intro backend inst input_tensors session gen_config stream_output gerr h
    rcases inst with _ | i <;> rcases input_tensors with _ | tm <;>
      rcases session with _ | s <;> rcases gen_config with _ | gc <;>
      first
        | rfl
        | simp at h
  · intro gc
    refine ⟨?_, ?_, ?_, ?_, ?_, ?_⟩
    · rintro (h | h)
      · simp [TMProper.build_generation_config, h]
      · rcases hp : gc.eos_ids with _ | l
        · simp [TMProper.build_generation_config, hp]
        · have hc : ¬ gc.eos_ids_count > 0 := by omega
          simp [TMProper.build_generation_config, hp, hc]
    · intro l hl hc
      simp [TMProper.build_generation_config, hl, hc]
    · rintro (h | h)
      · simp [TMProper.build_generation_config, h]
      · rcases hp : gc.stop_ids with _ | l
        · simp [TMProper.build_generation_config, hp]
        · have hc : ¬ gc.stop_ids_count > 0 := by omega
          simp [TMProper.build_generation_config, hp, hc]
    · intro l hl hc
      simp [TMProper.build_generation_config, hl, hc]
    · rintro (h | h)
      · simp [TMProper.build_generation_config, h]
      · rcases hp : gc.bad_ids with _ | l
        · simp [TMProper.build_generation_config, hp]
        · have hc : ¬ gc.bad_ids_count > 0 := by omega
          simp [TMProper.build_generation_config, hp, hc]
    · intro l hl hc
      simp [TMProper.build_generation_config, hl, hc]
  · intro backend i tm s gc st gerr o hb
    simp [TMProper.turbomind_forward, hb]

/-- Witness for `C8_forward_validation`: a null instance is rejected; a
config with eos pointer [2] and count 1 copies [2] into the backend config;
and the concrete forward call succeeds, returning the backend's output. -/
theorem C8_witness :
    (TMProper.turbomind_forward TestData.okBackendP none (some 2)
        (some TestData.sessionA) (some TestData.gcFull) false "" =
      (none, "Invalid parameters for forward")) ∧
    ((TMProper.build_generation_config TestData.gcFull).eos_ids =
      [2].take (TestData.gcFull.eos_ids_count.toNat)) ∧
    (TMProper.turbomind_forward TestData.okBackendP (some 1) (some 2)
        (some TestData.sessionA) (some TestData.gcFull) false "" =
      (some { tensors := 0, status := .completed, seq_len := 0 }, "")) :=
  ⟨C8_forward_validation.1 TestData.okBackendP none (some 2) (some TestData.sessionA)
      (some TestData.gcFull) false "" (Or.inl rfl),
   (C8_forward_validation.2.1 TestData.gcFull).2.1 [2] rfl (by decide),
   C8_forward_validation.2.2 TestData.okBackendP 1 2 TestData.sessionA
      TestData.gcFull false "" 0 rfl⟩
